import Mathlib

/-!
Shallow embedding of `scripts/garmin_sync.py` (Garmin Connect activity
sync tool): data model, identifier reconciler, paginated listing,
authenticated fetch/login error flow, per-item download task, bounded
concurrent gather, and the upload loop, together with theorems about the
claims of the specification.
-/

namespace GarminSync

/-! ## Errors

The exception classes declared in `garmin_sync.py`, plus the generic
transport/HTTP failures raised by the underlying HTTP libraries. -/

/-- Exception taxonomy: `connectionError`, `tooManyRequestsError` and
`authenticationError` are the `GarminConnect*Error` classes of the source;
`transportError` stands for any exception raised by the HTTP transport
itself; `httpError s` stands for `raise_for_status()` on status `s ≥ 400`;
`uploadFailed` is the bare `Exception("failed to upload")` raised in
`upload_activities`. -/
inductive GarminError
  | connectionError
  | tooManyRequestsError
  | authenticationError
  | transportError
  | httpError (status : Nat)
  | uploadFailed
deriving DecidableEq, Repr

/-! ## Data model -/

/-- An activity record as returned by the listing endpoint.
`activityId` models `a.get("activityId", ...)` (`none` when the key is
absent); `typeKey` models the nested field `x["activityType"]["typeKey"]`. -/
structure Activity where
  activityId : Option Nat
  typeKey : String
deriving DecidableEq, Repr

/-- `str(a.get("activityId", ""))` in `get_activity_id_list`: the decimal
string of the id when present, and `str("") = ""` when the key is absent. -/
def extractId (a : Activity) : String :=
  match a.activityId with
  | some n => toString n
  | none => ""

/-! ## Identifier reconciler (download_new_activities, lines 412-421) -/

/-- `i.split(".")[0]`: everything before the first `'.'` of a file name
(computed on the underlying character list). -/
def stemOf (s : String) : String := ⟨s.data.takeWhile (fun c => c ≠ '.')⟩

/-- `i.startswith(".")`: the file name's first character is `'.'`. -/
def isHidden (s : String) : Bool := s.data.head? = some '.'

/-- `downloaded_ids = [i.split(".")[0] for i in os.listdir(GPX_FOLDER) if not
i.startswith(".")]`, over the directory entry list `entries`. -/
def downloaded_ids (entries : List String) : List String :=
  (entries.filter (fun i => !(isHidden i))).map stemOf

/-- `to_generate_garmin_ids = list(set(activity_ids) - set(downloaded_ids))`:
a duplicate-free list whose members are exactly the remote ids not present
locally.  Python's set iteration order is unspecified; the model fixes
first-occurrence order, which is one admissible order. -/
def to_generate_garmin_ids (activity_ids downloaded : List String) : List String :=
  (activity_ids.filter (fun id => decide (id ∉ downloaded))).dedup

/-! ## Listing (Garmin.get_activities, get_activity_id_list) -/

/-- The remote service's answer for the page `[start, start+limit)` of the
activity list `remote` (the `activitylist-service` search endpoint). -/
def listPage (remote : List Activity) (start limit : Nat) : List Activity :=
  (remote.drop start).take limit

/-- `Garmin.get_activities(start, limit)`: fetch the page, then filter by
`activity_types` unless the filter is inactive
(`len(self.activity_types) == 0 or self.activity_types[0] == ""`). -/
def get_activities (activity_types : List String) (remote : List Activity)
    (start limit : Nat) : List Activity :=
  let activities := listPage remote start limit
  if activity_types.length = 0 ∨ activity_types.head? = some "" then activities
  else activities.filter (fun x => decide (x.typeKey ∈ activity_types))

theorem get_activities_no_filter (remote : List Activity) (start limit : Nat) :
    get_activities [] remote start limit = (remote.drop start).take limit := by
  simp [get_activities, listPage]

theorem get_activities_ne_nil_start_lt (activity_types : List String)
    (remote : List Activity) (start limit : Nat)
    (h : get_activities activity_types remote start limit ≠ []) :
    start < remote.length := by
  by_contra hs
  push_neg at hs
  have hd : remote.drop start = [] := List.drop_eq_nil_of_le hs
  unfold get_activities listPage at h
  rw [hd] at h
  simp at h

/-- `get_activity_id_list` in `"all"` sync mode: page through
`get_activities(start, 100)`, accumulating `str(a.get("activityId", ""))`
for each record, recursing with `start + 100` while pages are non-empty.
The second component instruments the number of listing calls performed. -/
def get_activity_id_list_all (activity_types : List String)
    (remote : List Activity) (start : Nat) : List String × Nat :=
  if h : get_activities activity_types remote start 100 ≠ [] then
    let ids := (get_activities activity_types remote start 100).map extractId
    let rest := get_activity_id_list_all activity_types remote (start + 100)
    (ids ++ rest.1, rest.2 + 1)
  else
    ([], 1)
termination_by remote.length - start
decreasing_by
  simp_wf
  have := get_activities_ne_nil_start_lt activity_types remote start 100 h
  omega

/-- `get_activity_id_list`: dispatch on `sync_type`; the non-`"all"`
(`"recent"`) branch fetches one page of size 1 and does not recurse.  The
second component counts listing calls. -/
def get_activity_id_list (sync_type : String) (activity_types : List String)
    (remote : List Activity) (start : Nat) : List String × Nat :=
  if sync_type = "all" then
    get_activity_id_list_all activity_types remote start
  else
    let activities := get_activities activity_types remote start 1
    if activities ≠ [] then (activities.map extractId, 1) else ([], 1)

/-! ## Login (Garmin.login, lines 94-156) -/

/-- The observable inputs of one `login()` call.
`signin = none` models an exception during the signin GET/POST pair
(first `try` block); `signin = some t` models a POST response whose text
yields ticket-URL search result `t` (`none`: the regex found no
`https:...ticket=...` URL).  `exchange = none` models an exception during
the ticket-exchange GET; `exchange = some s` models a response with HTTP
status `s`. -/
structure LoginEnv where
  signin : Option (Option String)
  exchange : Option Nat
deriving DecidableEq, Repr

/-- Body of the second `try` block of `login()` (the ticket exchange):
raises `GarminConnectTooManyRequestsError` on status 429, then
`raise_for_status()` raises on `s ≥ 400`; on success `is_login` is set. -/
def loginExchangeBody (exchange : Option Nat) : Except GarminError Unit :=
  match exchange with
  | none => .error .transportError
  | some s =>
    if s = 429 then .error .tooManyRequestsError
    else if 400 ≤ s then .error (.httpError s)
    else .ok ()

/-- `Garmin.login()`: `Except.ok true` models a normal return with the
`is_login` flag set.  Note that the `except Exception` handler around the
ticket exchange converts every exception raised inside it — including the
`GarminConnectTooManyRequestsError` raised on status 429 — into
`GarminConnectConnectionError`. -/
def login (env : LoginEnv) : Except GarminError Bool :=
  match env.signin with
  | none => .error .connectionError
  | some ticket =>
    match ticket with
    | none => .error .authenticationError
    | some _ =>
      match loginExchangeBody env.exchange with
      | .ok () => .ok true
      | .error _ => .error .connectionError

/-! ## Authenticated fetch (Garmin.fetch_data, lines 158-182) -/

/-- One HTTP response: status code and JSON payload (abstracted to a
string).  `none` at the call site models an exception raised by
`self.req.get` itself. -/
structure HttpResp where
  status : Nat
  payload : String
deriving DecidableEq, Repr

/-- Body of `fetch_data`'s `try` block for one GET described by `resp`:
an exception from the transport, the explicit raise on status 429, or
`raise_for_status()` on `s ≥ 400`; otherwise the decoded payload. -/
def tryFetchOnce (resp : Option HttpResp) : Except GarminError String :=
  match resp with
  | none => .error .transportError
  | some r =>
    if r.status = 429 then .error .tooManyRequestsError
    else if 400 ≤ r.status then .error (.httpError r.status)
    else .ok r.payload

/-- Trace of one `fetch_data` call: its outcome, the number of GET
attempts it performed, and the number of `login()` calls it made. -/
structure FetchTrace where
  result : Except GarminError String
  gets : Nat
  logins : Nat
deriving Repr

/-- `Garmin.fetch_data(url, retrying=True)` (the recursive call): `oracle i`
is the response of the `i`-th GET attempt.  On any exception with
`retrying` set, raise `GarminConnectConnectionError`. -/
def fetch_data_retry (oracle : Nat → Option HttpResp) (idx : Nat) : FetchTrace :=
  match tryFetchOnce (oracle idx) with
  | .ok v => ⟨.ok v, 1, 0⟩
  | .error _ => ⟨.error .connectionError, 1, 0⟩

/-- `Garmin.fetch_data(url)` (the initial call, `retrying=False`):
`loginResult` is the outcome of `self.login()`.  On any exception, call
`login()` and recurse once with `retrying=True` (`fetch_data_retry`). -/
def fetch_data (oracle : Nat → Option HttpResp) (loginResult : Except GarminError Unit)
    (idx : Nat) : FetchTrace :=
  match tryFetchOnce (oracle idx) with
  | .ok v => ⟨.ok v, 1, 0⟩
  | .error _ =>
    match loginResult with
    | .error e => ⟨.error e, 1, 1⟩
    | .ok () =>
      let t := fetch_data_retry oracle (idx + 1)
      ⟨t.result, t.gets + 1, t.logins + 1⟩

/-! ## Per-item download task (save_garmin_activity, lines 281-293) -/

/-- Result of one `save_garmin_activity` task: the bare `except:` means it
either saved the file or logged the failure — it never raises. -/
inductive SaveOutcome
  | saved
  | failedLogged
deriving DecidableEq, Repr

/-- `save_garmin_activity(client, activity_id)`: download the payload and
write it to the archive; the bare `except:` catches every exception
(network, decode, disk), prints the traceback and returns. -/
def save_garmin_activity (download : Except GarminError String)
    (write : String → Except GarminError Unit) : SaveOutcome :=
  match (do let d ← download; write d : Except GarminError Unit) with
  | .ok _ => .saved
  | .error _ => .failedLogged

/-- The functional result view of
`gather_with_concurrency(n, [save_garmin_activity(client, id) for id ...])`:
every scheduled task runs to completion and yields its own outcome,
independent of the others. -/
def gather_results
    (items : List (Except GarminError String × (String → Except GarminError Unit))) :
    List SaveOutcome :=
  items.map fun it => save_garmin_activity it.1 it.2

/-- State after the batch part of `download_new_activities`: the outcomes
of all scheduled tasks, and whether control reached
`make_activities_file_only` (the index rebuild, line 428). -/
structure RunResult where
  outcomes : List SaveOutcome
  index_rebuilt : Bool
deriving DecidableEq, Repr

/-- Tail of `download_new_activities`: run the download batch, then invoke
the index rebuild.  Because `gather_results` is total, the rebuild step is
always reached. -/
def run_download_batch
    (items : List (Except GarminError String × (String → Except GarminError Unit))) :
    RunResult :=
  ⟨gather_results items, true⟩

/-- The concurrency ceiling passed to `gather_with_concurrency` by
`download_new_activities` (line 425). -/
def download_concurrency : Nat := 10

/-! ## Upload loop (Garmin.upload_activities, lines 214-245) -/

/-- Observable inputs for one `(file, garmin_type)` pair of
`upload_activities`.  `post = none`: `req.post` raised; `post = some none`:
the POST returned but `res.json()["detailedImportResult"]` raised;
`post = some (some ids)`: the parsed `successes` internal-id list.
`put = none`: `req.put` (type correction) raised; `put = some s`: the PUT
returned status `s` (checked by `raise_for_status`). -/
structure UploadItem where
  post : Option (Option (List Nat))
  put : Option Nat
deriving DecidableEq, Repr

/-- Per-item outcome of the upload loop. -/
inductive ItemOutcome
  | skippedPostError
  | noSuccesses
  | uploaded (id : Nat)
deriving DecidableEq, Repr

/-- `Garmin.upload_activities(files)`: for each item, a failure of the
initial `req.post` is printed and the item skipped (`continue`); a failure
to parse `detailedImportResult` raises `Exception("failed to upload")`;
when `successes` is non-empty, the activity-type correction PUT is issued
and `raise_for_status()` propagates its failure. -/
def upload_activities : List UploadItem → Except GarminError (List ItemOutcome)
  | [] => .ok []
  | it :: rest =>
    match it.post with
    | none => (upload_activities rest).map (fun os => .skippedPostError :: os)
    | some parse =>
      match parse with
      | none => .error .uploadFailed
      | some successes =>
        match successes with
        | [] => (upload_activities rest).map (fun os => .noSuccesses :: os)
        | id :: _ =>
          match it.put with
          | none => .error .transportError
          | some s =>
            if 400 ≤ s then .error (.httpError s)
            else (upload_activities rest).map (fun os => .uploaded id :: os)

/-! ## One sync run (download_new_activities, lines 398-429) -/

/-- One run of `download_new_activities` at the reconciliation level, on
the single-file branch of `save_garmin_activity` (file types other than
`fit`), assuming every scheduled download succeeds: from the local
directory entries and the listed remote ids, compute the new-work set and
the directory entries after the batch (each download writes
`f"{activity_id}.{file_type}"`). -/
def sync_run (file_type : String) (remote_ids entries : List String) :
    List String × List String :=
  let newWork := to_generate_garmin_ids remote_ids (downloaded_ids entries)
  (newWork, entries ++ newWork.map (fun id => id ++ "." ++ file_type))

/-! ## Claim theorems -/

/-- C1: the new-work set computed per run equals the set difference of the
remote identifier list and the local identifier set; the local identifier
set is exactly the name stems (everything before the first `.`) of the
directory entries whose names do not start with `.`; the new-work set
contains no duplicate identifiers (its order is unspecified, so the
comparison with the spec's set subtraction is made on the underlying
finite sets). -/
theorem new_work_is_set_difference (R entries : List String) :
    (to_generate_garmin_ids R (downloaded_ids entries)).toFinset
        = R.toFinset \ (downloaded_ids entries).toFinset
      ∧ (to_generate_garmin_ids R (downloaded_ids entries)).Nodup
      ∧ ∀ id, id ∈ downloaded_ids entries ↔
          ∃ e ∈ entries, isHidden e = false ∧ stemOf e = id := by
  refine ⟨?_, ?_, ?_⟩
  · ext x
    simp [to_generate_garmin_ids, List.mem_dedup, List.mem_filter]
  · exact List.nodup_dedup _
  · intro id
    simp only [downloaded_ids, List.mem_map, List.mem_filter, Bool.not_eq_true']
    constructor
    · rintro ⟨e, ⟨he, hp⟩, hs⟩
      exact ⟨e, he, hp, hs⟩
    · rintro ⟨e, he, hp, hs⟩
      exact ⟨e, ⟨he, hp⟩, hs⟩

/-- C10: identifier extraction from listed records is total and always
yields strings: the identifier is `str` of the record's `activityId`
field, a record with no `activityId` key contributes the empty string
(no exception), and the id list returned by the listing step is exactly
the image of the page under this extraction. -/
theorem extract_id_total_default (acts : List Activity) (a : Activity)
    (hnone : a.activityId = none) :
    extractId a = "" ∧
    (∀ b : Activity, ∀ m : Nat, b.activityId = some m → extractId b = toString m) ∧
    (acts.map extractId).length = acts.length ∧
    (∀ types remote start, get_activities types remote start 1 ≠ [] →
      get_activity_id_list "recent" types remote start
        = ((get_activities types remote start 1).map extractId, 1)) := by
  refine ⟨by simp [extractId, hnone], ?_, by simp, ?_⟩
  · intro b m hb
    simp [extractId, hb]
  · intro types remote start hne
    simp [get_activity_id_list, hne]

/-- Witness for C10 at a record with no `activityId` key. -/
theorem extract_id_total_default_witness :
    (Activity.mk none "running").activityId = none ∧
    extractId ⟨none, "running"⟩ = "" :=
  ⟨rfl, (extract_id_total_default [] ⟨none, "running"⟩ rfl).1⟩

/-- A remote listing whose first page (size 100) holds only `cycling`
activities while one `running` activity sits on the second page. -/
def remote_cyc_run : List Activity :=
  List.replicate 100 ⟨some 1, "cycling"⟩ ++ [⟨some 2, "running"⟩]

/-- C9: in `"all"` sync mode the pagination recursion terminates on the
first page whose type-filtered result is empty — the termination test is
applied after type filtering, not to the raw page — even when the
unfiltered remote page is non-empty and further matching activities exist
on later pages (`remote_cyc_run` exhibits exactly that). -/
theorem pagination_stops_on_filtered_empty (remote : List Activity)
    (types : List String) (start : Nat)
    (h : get_activities types remote start 100 = []) :
    get_activity_id_list_all types remote start = ([], 1) ∧
    (listPage remote_cyc_run 0 100 ≠ [] ∧
     (∃ a ∈ remote_cyc_run.drop 100, decide (a.typeKey ∈ (["running"] : List String)) = true) ∧
     get_activity_id_list_all ["running"] remote_cyc_run 0 = ([], 1)) := by
  have main : ∀ (r : List Activity) (t : List String) (s : Nat),
      get_activities t r s 100 = [] → get_activity_id_list_all t r s = ([], 1) := by
    intro r t s hh
    rw [get_activity_id_list_all]
    simp [hh]
  refine ⟨main remote types start h, ?_, ?_, main _ _ _ (by decide)⟩
  · decide
  · exact ⟨⟨some 2, "running"⟩, by decide, by decide⟩

/-- Witness for C9 at a concrete empty filtered page. -/
theorem pagination_stops_on_filtered_empty_witness :
    get_activities ["running"] remote_cyc_run 0 100 = [] ∧
    get_activity_id_list_all ["running"] remote_cyc_run 0 = ([], 1) :=
  ⟨by decide,
   (pagination_stops_on_filtered_empty remote_cyc_run ["running"] 0 (by decide)).1⟩

/-- C5: the failure of any single per-item download task is caught inside
that task (`save_garmin_activity` is total); the batch call never raises,
every other task still runs to completion with its own outcome, and
control reaches the post-batch index rebuild step. -/
theorem batch_fault_isolation
    (items : List (Except GarminError String × (String → Except GarminError Unit)))
    (i : Nat)
    (hfail : (items[i]?).map (fun it => save_garmin_activity it.1 it.2)
              = some SaveOutcome.failedLogged) :
    (run_download_batch items).outcomes.length = items.length ∧
    (run_download_batch items).outcomes[i]? = some SaveOutcome.failedLogged ∧
    (∀ j, j ≠ i → (run_download_batch items).outcomes[j]?
        = (items[j]?).map (fun it => save_garmin_activity it.1 it.2)) ∧
    (run_download_batch items).index_rebuilt = true := by
  refine ⟨by simp [run_download_batch, gather_results], ?_, ?_, rfl⟩
  · rw [show (run_download_batch items).outcomes[i]?
        = (items[i]?).map (fun it => save_garmin_activity it.1 it.2) from by
      simp [run_download_batch, gather_results]]
    exact hfail
  · intro j _
    simp [run_download_batch, gather_results]

/-- Concrete batch for the C5 witness: the first task fails to download,
the second succeeds. -/
def witness_items : List (Except GarminError String × (String → Except GarminError Unit)) :=
  [(.error .transportError, fun _ => .ok ()), (.ok "data", fun _ => .ok ())]

/-- Witness for C5: with the first task failing, the batch completes, the
second task's outcome is unaffected, and the index rebuild is reached. -/
theorem batch_fault_isolation_witness :
    ((witness_items[0]?).map (fun it => save_garmin_activity it.1 it.2)
        = some SaveOutcome.failedLogged) ∧
    (run_download_batch witness_items).outcomes.length = witness_items.length ∧
    (run_download_batch witness_items).index_rebuilt = true :=
  ⟨rfl, (batch_fault_isolation witness_items 0 rfl).1,
    (batch_fault_isolation witness_items 0 rfl).2.2.2⟩

/-- C8: in `upload_activities`, a failure of the initial upload request
for an item is non-fatal (logged, item skipped, loop continues with the
remaining items), while a failure in the follow-up activity-type
correction for a successfully uploaded item raises. -/
theorem upload_failure_asymmetry (itS itF : UploadItem) (rest : List UploadItem)
    (hS : itS.post = none)
    (id : Nat) (tl : List Nat) (s : Nat)
    (hF : itF.post = some (some (id :: tl)))
    (hFput : itF.put = some s) (hs : 400 ≤ s) :
    upload_activities (itS :: rest)
        = (upload_activities rest).map (fun os => ItemOutcome.skippedPostError :: os) ∧
    upload_activities (itF :: rest) = .error (.httpError s) := by
  constructor
  · rw [upload_activities, hS]
  · rw [upload_activities, hF, hFput]
    simp [hs]

/-- Witness for C8: upload failure is skipped (call still succeeds), type
correction failure is fatal. -/
theorem upload_failure_asymmetry_witness :
    (UploadItem.mk none none).post = none ∧
    (UploadItem.mk (some (some [7])) (some 500)).post = some (some [7]) ∧
    upload_activities [⟨none, none⟩] = .ok [ItemOutcome.skippedPostError] ∧
    upload_activities [⟨some (some [7]), some 500⟩] = .error (.httpError 500) := by
  have h := upload_failure_asymmetry ⟨none, none⟩ ⟨some (some [7]), some 500⟩ []
    rfl 7 [] 500 rfl rfl (by decide)
  exact ⟨rfl, rfl, by rw [h.1]; rfl, h.2⟩

/-- Pagination alignment lemma: when the remote list holds exactly
`start + k * 100` activities, paging (without type filter) from offset
`start` returns the ids of everything from `start` on and makes `k + 1`
listing calls. -/
theorem id_list_all_aligned (remote : List Activity) :
    ∀ (k start : Nat), remote.length = start + k * 100 →
      get_activity_id_list_all [] remote start
        = ((remote.drop start).map extractId, k + 1) := by
  intro k
  induction k with
  | zero =>
    intro start h
    have hd : remote.drop start = [] := List.drop_eq_nil_of_le (by omega)
    rw [get_activity_id_list_all]
    simp [get_activities_no_filter, hd]
  | succ k ih =>
    intro start h
    have hlen : ((remote.drop start).take 100).length = 100 := by
      rw [List.length_take, List.length_drop]
      omega
    have hne : get_activities [] remote start 100 ≠ [] := by
      rw [get_activities_no_filter]
      intro hc
      rw [hc] at hlen
      simp at hlen
    rw [get_activity_id_list_all, dif_pos hne]
    simp only [ih (start + 100) (by omega), get_activities_no_filter]
    have hdd : remote.drop (start + 100) = (remote.drop start).drop 100 := by
      rw [List.drop_drop]
    rw [hdd, ← List.map_append, List.take_append_drop]

/-- C2: in `"all"` sync mode, listing pages through `get_activities` with
fixed page size 100 from offset 0 and stops exactly on the first empty
page; for a remote source with exactly `k * 100` activities it makes
exactly `k + 1` listing calls and returns exactly `k * 100` identifiers,
unique whenever the remote records carry pairwise distinct ids. -/
theorem pagination_all_mode (remote : List Activity) (k : Nat)
    (hlen : remote.length = k * 100)
    (hnodup : (remote.map extractId).Nodup) :
    get_activity_id_list_all [] remote 0 = (remote.map extractId, k + 1) ∧
    (get_activity_id_list_all [] remote 0).1.length = k * 100 ∧
    (get_activity_id_list_all [] remote 0).1.Nodup := by
  have h := id_list_all_aligned remote k 0 (by omega)
  rw [List.drop_zero] at h
  exact ⟨h, by rw [h]; simpa using hlen, by rw [h]; exact hnodup⟩

/-- A remote source with exactly `1 * 100` activities with distinct ids. -/
def remote100 : List Activity :=
  (List.range 100).map (fun i => ⟨some i, "running"⟩)

/-- Witness for C2: on a remote source of exactly 100 activities the
listing makes 2 calls and returns all 100 ids. -/
theorem pagination_all_mode_witness :
    remote100.length = 1 * 100 ∧ (remote100.map extractId).Nodup ∧
    get_activity_id_list_all [] remote100 0 = (remote100.map extractId, 1 + 1) :=
  ⟨by decide, by decide,
   (pagination_all_mode remote100 1 (by decide) (by decide)).1⟩

/-- C3: `fetch_data` retries at most once: a successful GET returns its
payload with no relogin; on the first failure it re-invokes `login()` and
retries exactly once (a successful retry returns that payload); when the
retried attempt also fails it propagates `ConnectionError`; no run ever
performs more than two GET attempts. -/
theorem fetch_data_single_retry
    (oS oM oF : Nat → Option HttpResp) (v w : String) (e0 e1 e2 : GarminError)
    (hS : tryFetchOnce (oS 0) = .ok v)
    (hM0 : tryFetchOnce (oM 0) = .error e0)
    (hM1 : tryFetchOnce (oM 1) = .ok w)
    (hF0 : tryFetchOnce (oF 0) = .error e1)
    (hF1 : tryFetchOnce (oF 1) = .error e2) :
    fetch_data oS (.ok ()) 0 = ⟨.ok v, 1, 0⟩ ∧
    fetch_data oM (.ok ()) 0 = ⟨.ok w, 2, 1⟩ ∧
    fetch_data oF (.ok ()) 0 = ⟨.error .connectionError, 2, 1⟩ ∧
    (∀ o : Nat → Option HttpResp, ∀ lr : Except GarminError Unit,
       (fetch_data o lr 0).gets ≤ 2) := by
  refine ⟨?_, ?_, ?_, ?_⟩
  · simp [fetch_data, hS]
  · simp [fetch_data, fetch_data_retry, hM0, hM1]
  · simp [fetch_data, fetch_data_retry, hF0, hF1]
  · intro o lr
    unfold fetch_data
    cases h0 : tryFetchOnce (o 0) with
    | ok v => simp
    | error e =>
      cases lr with
      | error le => simp
      | ok u =>
        cases u
        unfold fetch_data_retry
        cases h1 : tryFetchOnce (o (0 + 1)) with
        | ok v => simp
        | error e => simp

/-- Witness for C3: with both GET attempts failing, `fetch_data` performs
exactly two attempts, one relogin, and reports `ConnectionError`. -/
theorem fetch_data_single_retry_witness :
    tryFetchOnce ((fun _ => some ⟨200, "page"⟩ : Nat → Option HttpResp) 0) = .ok "page" ∧
    tryFetchOnce ((fun _ => none : Nat → Option HttpResp) 0) = .error .transportError ∧
    fetch_data (fun _ => some ⟨200, "page"⟩) (.ok ()) 0 = ⟨.ok "page", 1, 0⟩ ∧
    fetch_data (fun _ => none) (.ok ()) 0 = ⟨.error .connectionError, 2, 1⟩ := by
  have h := fetch_data_single_retry (fun _ => some ⟨200, "page"⟩)
    (fun i => if i = 0 then none else some ⟨200, "page"⟩) (fun _ => none)
    "page" "page" .transportError .transportError .transportError
    rfl rfl rfl rfl rfl
  exact ⟨rfl, rfl, h.1, h.2.2.1⟩

/-- C4 counterexample: when the ticket-exchange response has HTTP status
429, `login` raises `ConnectionError`, not `TooManyRequestsError` — the
`except Exception` handler around the exchange converts the internally
raised `TooManyRequestsError`. -/
theorem login_429_yields_connection_error :
    login ⟨some (some "ticket"), some 429⟩ = .error .connectionError ∧
    login ⟨some (some "ticket"), some 429⟩ ≠ .error .tooManyRequestsError := by
  constructor
  · rfl
  · intro h
    rw [show login ⟨some (some "ticket"), some 429⟩ = .error .connectionError from rfl] at h
    simp at h

/-- C4 (amended): `login()` raises `AuthenticationError` when the login
page yields no service-ticket URL; when the ticket-exchange response has
status 429 it raises `TooManyRequestsError` internally but the
surrounding handler converts it, so the caller observes
`ConnectionError`; any other transport or HTTP failure also surfaces as
`ConnectionError`; on success the authenticated flag is set. -/
theorem login_error_taxonomy
    (envT envA envR envX envH envS : LoginEnv) (t u x y : String) (sBad sOk : Nat)
    (hT : envT.signin = none)
    (hA : envA.signin = some none)
    (hR : envR.signin = some (some t)) (hR2 : envR.exchange = some 429)
    (hX : envX.signin = some (some u)) (hX2 : envX.exchange = none)
    (hH : envH.signin = some (some x)) (hH2 : envH.exchange = some sBad)
    (hH3 : sBad ≠ 429) (hH4 : 400 ≤ sBad)
    (hS : envS.signin = some (some y)) (hS2 : envS.exchange = some sOk)
    (hS3 : sOk ≠ 429) (hS4 : sOk < 400) :
    login envT = .error .connectionError ∧
    login envA = .error .authenticationError ∧
    (loginExchangeBody envR.exchange = .error .tooManyRequestsError ∧
       login envR = .error .connectionError) ∧
    login envX = .error .connectionError ∧
    login envH = .error .connectionError ∧
    login envS = .ok true := by
  refine ⟨?_, ?_, ⟨?_, ?_⟩, ?_, ?_, ?_⟩
  · rw [login, hT]
  · rw [login, hA]
  · rw [hR2, loginExchangeBody]
    simp
  · rw [login, hR, hR2, loginExchangeBody]
    simp
  · rw [login, hX, hX2, loginExchangeBody]
  · rw [login, hH, hH2, loginExchangeBody]
    simp [hH3, hH4]
  · rw [login, hS, hS2, loginExchangeBody]
    simp [hS3, Nat.not_le.mpr hS4]

/-- Witness for C4's amended statement at concrete environments. -/
theorem login_error_taxonomy_witness :
    (LoginEnv.mk (some none) none).signin = some none ∧
    login ⟨none, none⟩ = .error .connectionError ∧
    login ⟨some none, none⟩ = .error .authenticationError ∧
    login ⟨some (some "t"), some 429⟩ = .error .connectionError ∧
    login ⟨some (some "t"), none⟩ = .error .connectionError ∧
    login ⟨some (some "t"), some 500⟩ = .error .connectionError ∧
    login ⟨some (some "t"), some 200⟩ = .ok true := by
  have h := login_error_taxonomy ⟨none, none⟩ ⟨some none, none⟩
    ⟨some (some "t"), some 429⟩ ⟨some (some "t"), none⟩
    ⟨some (some "t"), some 500⟩ ⟨some (some "t"), some 200⟩
    "t" "t" "t" "t" 500 200
    rfl rfl rfl rfl rfl rfl rfl rfl (by decide) (by decide)
    rfl rfl (by decide) (by decide)
  exact ⟨rfl, h.1, h.2.1, h.2.2.1.2, h.2.2.2.1, h.2.2.2.2.1, h.2.2.2.2.2⟩

theorem downloaded_ids_append (a b : List String) :
    downloaded_ids (a ++ b) = downloaded_ids a ++ downloaded_ids b := by
  simp [downloaded_ids, List.filter_append]

theorem mem_downloaded_ids_of (e : String) (l : List String)
    (he : e ∈ l) (hvis : isHidden e = false) : stemOf e ∈ downloaded_ids l := by
  simp only [downloaded_ids, List.mem_map]
  exact ⟨e, List.mem_filter.mpr ⟨he, by simp [hvis]⟩, rfl⟩

/-- C7: the sync run is idempotent with respect to already-archived
activities: an id listed as already downloaded is never scheduled, and —
for a single-file format whose written names `id.file_type` stem back to
`id` and are not hidden — running the full sync twice in succession with
no new remote activities schedules zero downloads on the second run. -/
theorem sync_idempotent (ft : String) (R entries : List String)
    (hstem : ∀ id ∈ R, stemOf (id ++ "." ++ ft) = id)
    (hvis : ∀ id ∈ R, isHidden (id ++ "." ++ ft) = false) :
    (∀ id, id ∈ downloaded_ids entries → id ∉ (sync_run ft R entries).1) ∧
    (sync_run ft R (sync_run ft R entries).2).1 = [] := by
  constructor
  · intro id hid hmem
    simp only [sync_run, to_generate_garmin_ids, List.mem_dedup, List.mem_filter,
      decide_eq_true_eq] at hmem
    exact hmem.2 hid
  · have key : ∀ id ∈ R, id ∈ downloaded_ids (sync_run ft R entries).2 := by
      intro id hidR
      rw [show (sync_run ft R entries).2
          = entries ++ (to_generate_garmin_ids R (downloaded_ids entries)).map
              (fun id => id ++ "." ++ ft) from rfl]
      rw [downloaded_ids_append]
      by_cases hloc : id ∈ downloaded_ids entries
      · exact List.mem_append_left _ hloc
      · refine List.mem_append_right _ ?_
        have hnew : id ∈ to_generate_garmin_ids R (downloaded_ids entries) := by
          unfold to_generate_garmin_ids
          rw [List.mem_dedup, List.mem_filter]
          exact ⟨hidR, by simpa using hloc⟩
        have hmem := mem_downloaded_ids_of (id ++ "." ++ ft) _
          (List.mem_map_of_mem (fun id => id ++ "." ++ ft) hnew) (hvis id hidR)
        rwa [hstem id hidR] at hmem
    show to_generate_garmin_ids R (downloaded_ids (sync_run ft R entries).2) = []
    unfold to_generate_garmin_ids
    have hfil : R.filter
        (fun id => decide (id ∉ downloaded_ids (sync_run ft R entries).2)) = [] := by
      rw [List.filter_eq_nil_iff]
      intro id hid
      simp [key id hid]
    rw [hfil]
    rfl

/-- Witness for C7 at the spec's example scenario: archive
`{111.gpx, 222.gpx}`, remote `{333}`. -/
theorem sync_idempotent_witness :
    (∀ id ∈ ["333"], stemOf (id ++ "." ++ "gpx") = id) ∧
    (∀ id ∈ ["333"], isHidden (id ++ "." ++ "gpx") = false) ∧
    (sync_run "gpx" ["333"]
      (sync_run "gpx" ["333"] ["111.gpx", "222.gpx"]).2).1 = [] :=
  ⟨by decide, by decide,
   (sync_idempotent "gpx" ["333"] ["111.gpx", "222.gpx"]
      (by decide) (by decide)).2⟩

/-! ## Bounded concurrency (gather_with_concurrency, lines 315-322)

`gather_with_concurrency(n, tasks)` wraps every task in `sem_task`, which
acquires an `asyncio.Semaphore(n)` before awaiting the task and releases
it when the task finishes.  The cooperative scheduler is modelled as a
small-step relation on a state holding the semaphore counter and each
task's phase; a task is "in flight" between its acquire and its release. -/

/-- Phase of one wrapped task: not yet admitted (`waiting`, with the
number of suspension points its body still has), admitted and executing
(`running`), or finished (`done`, semaphore released). -/
inductive TaskState
  | waiting (body : Nat)
  | running (left : Nat)
  | done
deriving DecidableEq, Repr

/-- Whether a task is currently admitted into execution. -/
def TaskState.isRunning : TaskState → Bool
  | .running _ => true
  | _ => false

/-- Scheduler state: the semaphore counter and all task phases. -/
structure SchedState where
  sem : Nat
  tasks : List TaskState
deriving DecidableEq, Repr

/-- Number of tasks simultaneously in flight. -/
def inFlight (s : SchedState) : Nat := s.tasks.countP TaskState.isRunning

/-- One cooperative scheduling step of `gather_with_concurrency`:
`acquire` admits a waiting task when the semaphore is positive
(`async with semaphore`), `work` advances an admitted task past one of
its suspension points, `finish` completes an admitted task and releases
the semaphore. -/
inductive SemStep : SchedState → SchedState → Prop
  | acquire (s : SchedState) (i : Nat) (hi : i < s.tasks.length) (b : Nat)
      (hw : s.tasks.get ⟨i, hi⟩ = .waiting b) (hs : 0 < s.sem) :
      SemStep s ⟨s.sem - 1, s.tasks.set i (.running b)⟩
  | work (s : SchedState) (i : Nat) (hi : i < s.tasks.length) (k : Nat)
      (hr : s.tasks.get ⟨i, hi⟩ = .running (k + 1)) :
      SemStep s ⟨s.sem, s.tasks.set i (.running k)⟩
  | finish (s : SchedState) (i : Nat) (hi : i < s.tasks.length)
      (hr : s.tasks.get ⟨i, hi⟩ = .running 0) :
      SemStep s ⟨s.sem + 1, s.tasks.set i .done⟩

/-- Initial state of `gather_with_concurrency(n, tasks)`: semaphore at
`n`, every task waiting. -/
def gather_init (n : Nat) (bodies : List Nat) : SchedState :=
  ⟨n, bodies.map TaskState.waiting⟩

/-- States a run of `gather_with_concurrency(n, tasks)` can reach. -/
def Reachable (n : Nat) (bodies : List Nat) (s : SchedState) : Prop :=
  Relation.ReflTransGen SemStep (gather_init n bodies) s

theorem countP_set_add (p : TaskState → Bool) (l : List TaskState) :
    ∀ (i : Nat) (hi : i < l.length) (a : TaskState),
      (l.set i a).countP p + (if p (l.get ⟨i, hi⟩) then 1 else 0)
        = l.countP p + (if p a then 1 else 0) := by
  induction l with
  | nil => intro i hi a; simp at hi
  | cons x xs ih =>
    intro i hi a
    cases i with
    | zero =>
      simp [List.countP_cons]
      omega
    | succ j =>
      have hj : j < xs.length := by simpa using hi
      simp only [List.set, List.countP_cons, List.get]
      have := ih j hj a
      omega

/-- The semaphore invariant of `gather_with_concurrency`: in every
reachable state, the semaphore counter plus the number of in-flight tasks
equals the ceiling. -/
theorem reachable_sem_invariant (n : Nat) (bodies : List Nat) (s : SchedState)
    (h : Reachable n bodies s) : s.sem + inFlight s = n := by
  induction h with
  | refl =>
    simp only [gather_init, inFlight]
    have : ∀ bs : List Nat, (bs.map TaskState.waiting).countP TaskState.isRunning = 0 := by
      intro bs
      induction bs with
      | nil => simp
      | cons b tl ih => simp [List.countP_cons, TaskState.isRunning, ih]
    simp [this bodies]
  | tail _ step ih =>
    cases step with
    | acquire i hi b hw hs =>
      have hc := countP_set_add TaskState.isRunning _ i hi (TaskState.running b)
      rw [hw] at hc
      simp [TaskState.isRunning] at hc
      simp only [inFlight] at ih ⊢
      simp only [SchedState.mk.injEq] at *
      omega
    | work i hi k hr =>
      have hc := countP_set_add TaskState.isRunning _ i hi (TaskState.running k)
      rw [hr] at hc
      simp [TaskState.isRunning] at hc
      simp only [inFlight] at ih ⊢
      omega
    | finish i hi hr =>
      have hc := countP_set_add TaskState.isRunning _ i hi TaskState.done
      rw [hr] at hc
      simp [TaskState.isRunning] at hc
      simp only [inFlight] at ih ⊢
      omega

/-- C6: the bounded gather never admits more than `n` tasks into
execution simultaneously — in every reachable state of a run with
ceiling `n`, the number of in-flight tasks is at most `n` — and the sync
entry point invokes it with the default ceiling 10. -/
theorem gather_concurrency_bounded (n : Nat) (bodies : List Nat) (s : SchedState)
    (h : Reachable n bodies s) :
    inFlight s ≤ n ∧ download_concurrency = 10 := by
  have := reachable_sem_invariant n bodies s h
  exact ⟨by omega, rfl⟩

/-- Witness for C6: a state of a ceiling-10 run with one task admitted. -/
theorem gather_concurrency_bounded_witness :
    Reachable 10 [3, 2, 1] ⟨9, [TaskState.running 3, TaskState.waiting 2, TaskState.waiting 1]⟩ ∧
    inFlight ⟨9, [TaskState.running 3, TaskState.waiting 2, TaskState.waiting 1]⟩ ≤ 10 ∧
    download_concurrency = 10 := by
  have hstep : SemStep (gather_init 10 [3, 2, 1])
      ⟨9, [TaskState.running 3, TaskState.waiting 2, TaskState.waiting 1]⟩ := by
    exact SemStep.acquire (gather_init 10 [3, 2, 1]) 0 (by decide) 3 rfl (by decide)
  have hreach : Reachable 10 [3, 2, 1]
      ⟨9, [TaskState.running 3, TaskState.waiting 2, TaskState.waiting 1]⟩ :=
    Relation.ReflTransGen.single hstep
  exact ⟨hreach, (gather_concurrency_bounded 10 [3, 2, 1] _ hreach).1,
    (gather_concurrency_bounded 10 [3, 2, 1] _ hreach).2⟩

end GarminSync
